import Mathlib

/-!
Shallow embedding of the finance-analyzer transaction pipeline
(`finance_analyzer.py`, `venmo_categorizer.py`, `web_app/data_processor.py`,
`web_app/internship_analysis.py`, `web_app/insights.py`).

Monetary amounts are modelled as rationals, calendar dates as integers
(day numbers), pandas NaN-able cells as `Option`, and a raised Python
exception as `Except.error`.
-/

namespace FinanceAnalyzer

/-- Predicate `leadMatch pat s` : the character list `pat` is an initial segment of `s`.
Building block for Python's `in` / `str.contains` substring tests. -/
def leadMatch : List Char → List Char → Bool
  | [], _ => true
  | _ :: _, [] => false
  | p :: ps, c :: cs => p == c && leadMatch ps cs

/-- Predicate `occursIn pat s` : the character list `pat` occurs contiguously in `s`. -/
def occursIn : List Char → List Char → Bool
  | pat, [] => leadMatch pat []
  | pat, c :: cs => leadMatch pat (c :: cs) || occursIn pat cs

/-- Python's `pat in s` substring test on strings. -/
def strContainsSub (s pat : String) : Bool :=
  occursIn pat.toList s.toList

/-- Python's `str.upper()` (ASCII, which covers every keyword the code
compares against). -/
def strUpper (s : String) : String :=
  String.mk (s.toList.map Char.toUpper)

/-- Test `'INTERNET PAYMENT' in str(d).upper() or 'PAYMENT - THANK YOU' in str(d).upper()
or 'DIRECTPAY' in str(d).upper()` — the credit-card payment-marker test used both
by `classify_transaction` and (as a case-insensitive regex
`'INTERNET PAYMENT|PAYMENT - THANK YOU|DIRECTPAY'`, `case=False`) by the
exclusion filters in `load_and_clean_data` and `process_discover_data`. -/
def containsMarker (description : String) : Bool :=
  strContainsSub (strUpper description) "INTERNET PAYMENT" ||
  strContainsSub (strUpper description) "PAYMENT - THANK YOU" ||
  strContainsSub (strUpper description) "DIRECTPAY"

/-- A transaction of the merged canonical ledger (one row of the combined
DataFrame built in `load_and_clean_data` / `combine_datasets`):
`Trans. Date`, `Description`, `Amount`, the source-provided `Category`,
the assigned `Enhanced_Category`, and `Source` (origin adapter). -/
structure Txn where
  date : Int
  description : String
  amount : ℚ
  sourceCategory : String
  category : String
  origin : String
  deriving Repr, DecidableEq

/-- Function `classify_transaction` from `load_and_clean_data`
(`finance_analyzer.py` lines 92-98, duplicated in
`web_app/data_processor.py` lines 58-64). -/
def classifyTransaction (amount : ℚ) (description : String) : String :=
  if amount > 0 then "Expense"
  else if containsMarker description then "Credit Card Payment"
  else "Credit/Payment"

/-- The predicate of the credit-card-payment exclusion filter
(`finance_analyzer.py` lines 133-135): `Amount < 0` and the description
matches a payment marker, case-insensitively.  Note: no condition on
`Source`. -/
def isCCPayment (t : Txn) : Bool :=
  decide (t.amount < 0) && containsMarker t.description

/-- The exclusion filter as written (`finance_analyzer.py` lines 133-143):
first select the matching rows, and only if that selection is non-empty
drop them from the combined frame. -/
def filterCCPayments (l : List Txn) : List Txn :=
  let ccPayments := l.filter isCCPayment
  if ccPayments.isEmpty then l
  else l.filter (fun t => !isCCPayment t)

/-- The number of rows the exclusion filter reports as removed
(`len(credit_card_payments)` in the combined-figure print). -/
def ccFilteredCount (l : List Txn) : Nat :=
  (l.filter isCCPayment).length

/-- Function `categorize_enhanced` from `enhanced_categorization`
(`finance_analyzer.py` lines 154-205): the nested if/elif chain over the
uppercased description and the source-provided category. -/
def categorizeEnhanced (description originalCat : String) : String :=
  if strContainsSub (strUpper description) "NASAAMESEXCHANGEL" then "Housing"
  else if ["COFFEE", "COPPERLINE", "STARBUCKS", "COFFEE VILLAGE", "SIGHTGLASS"].any
      (fun k => strContainsSub (strUpper description) k) then "Coffee & Cafes"
  else if ["CURSOR", "OPENAI", "CHATGPT", "APPLE.COM"].any
      (fun k => strContainsSub (strUpper description) k) then "Tech & Software"
  else if ["UBER", "LYFT", "CLIPPER", "ZIPCAR"].any
      (fun k => strContainsSub (strUpper description) k) then "Transportation"
  else if strContainsSub (strUpper description) "UNITED AIRLINES" then "Air Travel"
  else if ["THAI NOODLE", "PHO TO LUV", "5TH ELEMENT INDIA"].any
        (fun k => strContainsSub (strUpper description) k) ||
      ["MCDONALD", "CHIPOTLE", "CHICK-FIL-A", "IN-N-OUT"].any
        (fun k => strContainsSub (strUpper description) k) ||
      originalCat == "Restaurants" then "Restaurants & Dining"
  else if (["NASA", "EMBRY RIDDLE", "ERAU"].any (fun k => strContainsSub (strUpper description) k)) &&
      !strContainsSub (strUpper description) "NASAAMESEXCHANGEL" then "Education/Work"
  else if ["EXXONMOBIL", "SHELL", "CHEVRON", "WAWA", "CIRCLE K", "MARATHON"].any
      (fun k => strContainsSub (strUpper description) k) then "Gas & Fuel"
  else if ["PUBLIX", "SAFEWAY", "TRADER JOE", "WINN-DIXIE", "TARGET"].any
        (fun k => strContainsSub (strUpper description) k) ||
      originalCat == "Groceries" || originalCat == "Supermarkets" then
    "Groceries & Supermarkets"
  else if originalCat == "Travel/ Entertainment" then "Travel & Entertainment"
  else if originalCat == "Awards and Rebate Credits" then "Cashback & Credits"
  else if originalCat == "Payments and Credits" then "Payments & Credits"
  else originalCat

/-! ### Venmo (peer-payment) adapter:
`VenmoCategorizer.export_final_data` (`venmo_categorizer.py` lines 277-305)
followed by `load_venmo_data` (`finance_analyzer.py` lines 14-62). -/

/-- One cleaned Venmo statement row as seen by `export_final_data`:
`To`, `From` and `Note` are NaN-able cells, `Amount_Clean` is the parsed
native amount (native convention: positive = income), `Datetime` a date. -/
structure VenmoRaw where
  toField : Option String
  fromField : Option String
  note : Option String
  amountClean : ℚ
  date : Int
  deriving Repr, DecidableEq

/-- One row of `venmo_categorized_transactions.csv` as written by
`export_final_data`. -/
structure VenmoExported where
  date : Int
  description : String
  amount : ℚ
  category : String
  otherParty : String
  transactionType : String
  deriving Repr, DecidableEq

/-- A NaN-able string cell rendered into an f-string (`f"Venmo - {other_party}"`):
pandas NaN prints as `nan`. -/
def cellStr : Option String → String
  | some s => s
  | none => "nan"

/-- Per-row export logic of `export_final_data` (`venmo_categorizer.py`
lines 277-305): `To == "Simon Cole"` means income with `Amount = abs`,
anything else is an expense with `Amount = -abs`; the description is the
note, or `"Venmo - {other_party}"` when the note is NaN. -/
def exportVenmoRow (t : VenmoRaw) (category : String) : VenmoExported :=
  if t.toField == some "Simon Cole" then
    { date := t.date
      description := match t.note with
        | some n => n
        | none => "Venmo - " ++ cellStr t.fromField
      amount := |t.amountClean|
      category := category
      otherParty := cellStr t.fromField
      transactionType := "Income" }
  else
    { date := t.date
      description := match t.note with
        | some n => n
        | none => "Venmo - " ++ cellStr t.toField
      amount := -|t.amountClean|
      category := category
      otherParty := cellStr t.toField
      transactionType := "Expense" }

/-- Normalization in `load_venmo_data` of an exported Venmo row into the
canonical shape (`finance_analyzer.py` lines 27-36): `Enhanced_Category`
is the Venmo category, and the sign is flipped once
(`venmo_df['Amount'] = -venmo_df['Amount']`) to match the Discover
convention. -/
def venmoToCanonical (e : VenmoExported) : Txn :=
  { date := e.date
    description := e.description
    amount := -e.amount
    sourceCategory := e.category
    category := e.category
    origin := "Venmo" }

/-! ### Aggregator: `spending_insights` (`finance_analyzer.py` lines
211-232) and `calculate_basic_metrics` (`web_app/data_processor.py`
lines 199-227). -/

/-- Sum `expenses['Amount'].sum()` where `expenses = df[df['Amount'] > 0]`. -/
def totalExpense (l : List Txn) : ℚ :=
  ((l.filter (fun t => decide (t.amount > 0))).map Txn.amount).sum

/-- Sum `abs(income['Amount'].sum())` where `income` keeps rows with
`Amount < 0` whose description does not match a payment marker. -/
def totalIncome (l : List Txn) : ℚ :=
  |((l.filter (fun t => decide (t.amount < 0) && !containsMarker t.description)).map
      Txn.amount).sum|

/-- Difference `net_spending = total_spent - total_credits`. -/
def netSpending (l : List Txn) : ℚ :=
  totalExpense l - totalIncome l

/-- The group-sum of one category:
`df.groupby('Enhanced_Category')['Amount'].sum()` evaluated at `c`. -/
def netByCategoryValue (l : List Txn) (c : String) : ℚ :=
  ((l.filter (fun t => t.category == c)).map Txn.amount).sum

/-- The category labels present in a ledger (the groupby keys). -/
def categoriesOf (l : List Txn) : List String :=
  (l.map Txn.category).dedup

/-- Total `sum(net_by_category(ledger).values())`: the sum of all group-sums. -/
def netByCategoryTotal (l : List Txn) : ℚ :=
  ((categoriesOf l).map (netByCategoryValue l)).sum

/-! ### Budget Projector.
CLI version: `internship_analysis` (`finance_analyzer.py` lines 594-597).
Web version: `calculate_internship_metrics`
(`web_app/internship_analysis.py` lines 43-45, 59). -/

/-- Expression `days_so_far = (today - income_start_dt).days + 1 if today >= income_start_dt
else 0` (`finance_analyzer.py` line 595). -/
def cliDaysSoFar (today start : Int) : Int :=
  if today ≥ start then today - start + 1 else 0

/-- Expression `daily_rent = total_rent / total_internship_days`
(`finance_analyzer.py` line 596), with
`total_internship_days = (income_end_dt - income_start_dt).days + 1`. -/
def cliDailyRent (totalRent : ℚ) (start endDay : Int) : ℚ :=
  totalRent / ((endDay - start + 1 : Int) : ℚ)

/-- Expression `allocated_rent_so_far = daily_rent * max(0, days_so_far)`
(`finance_analyzer.py` line 597). -/
def cliAllocatedRent (totalRent : ℚ) (today start endDay : Int) : ℚ :=
  cliDailyRent totalRent start endDay * ((max 0 (cliDaysSoFar today start) : Int) : ℚ)

/-- Expression `days_elapsed = (datetime.now().date() - start).days + 1` then
`days_elapsed = max(0, min(days_elapsed, duration_days))`
(`web_app/internship_analysis.py` lines 44-45), with
`duration_days = (end - start).days + 1`. -/
def webDaysElapsed (today start endDay : Int) : Int :=
  max 0 (min (today - start + 1) (endDay - start + 1))

/-- Expression `smooth_rent_total = daily_rent * days_elapsed`
(`web_app/internship_analysis.py` line 59). -/
def webSmoothRentTotal (dailyRent : ℚ) (today start endDay : Int) : ℚ :=
  dailyRent * ((webDaysElapsed today start endDay : Int) : ℚ)

/-! ### Card adapter ingestion: date conversion and amount cleaning
(`finance_analyzer.py` lines 70-71 and 88-89, same code in
`web_app/data_processor.py` lines 45-46 and 55). -/

/-- One raw Discover CSV row before cleaning.  `dateRaw = none` stands for
a date string `pd.to_datetime` cannot parse (it raises);
`amountRaw = none` stands for a non-numeric amount string
(`pd.to_numeric(..., errors='coerce')` turns it into NaN). -/
structure RawCardRow where
  dateRaw : Option Int
  description : String
  amountRaw : Option ℚ
  category : String
  deriving Repr, DecidableEq

/-- A cleaned card row: the date is parsed; the amount is NaN-able
(`none` after coercion of a non-numeric cell). -/
structure CardRow where
  date : Int
  description : String
  amount : Option ℚ
  category : String
  deriving Repr, DecidableEq

/-- The date-conversion and amount-cleaning steps of the card adapter:
`df['Trans. Date'] = pd.to_datetime(df['Trans. Date'])` raises on the
first unparseable date (aborting the whole file), and
`df['Amount'] = pd.to_numeric(df['Amount'], errors='coerce')` replaces a
non-numeric amount by NaN while keeping the row. -/
def parseCardRows (rows : List RawCardRow) : Except String (List CardRow) :=
  if rows.all (fun r => r.dateRaw.isSome) then
    Except.ok (rows.map (fun r =>
      { date := r.dateRaw.getD 0
        description := r.description
        amount := r.amountRaw
        category := r.category }))
  else Except.error "to_datetime: unable to parse date"

/-! ### Ratio guards (`web_app/insights.py` lines 192-196,
`web_app/internship_analysis.py` lines 63-65 and 143,
`finance_analyzer.py` lines 680-681 and 724-728).
A bare Python division is modelled as `pyDiv`, which is `none` when the
denominator is zero (ZeroDivisionError / NaN) — the observable the guards
exist to avoid. -/

/-- Real division semantics: undefined (`none`) at denominator zero. -/
def pyDiv (a b : ℚ) : Option ℚ :=
  if b = 0 then none else some (a / b)

/-- Expression `actual_daily_rate = total_actual_spending / days_elapsed if
days_elapsed > 0 else 0` (`web_app/internship_analysis.py` line 65). -/
def actualDailyRate (totalSpending : ℚ) (daysElapsed : Int) : Option ℚ :=
  if daysElapsed > 0 then pyDiv totalSpending (daysElapsed : ℚ) else some 0

/-- Expression `'spending_efficiency': (actual_daily_rate / daily_budget) * 100 if
daily_budget > 0 else 0` (`web_app/internship_analysis.py` line 143). -/
def spendingEfficiency (rate dailyBudget : ℚ) : Option ℚ :=
  if dailyBudget > 0 then (pyDiv rate dailyBudget).map (fun x => x * 100) else some 0

/-- Expression `percentage = (net_amount / net_spent) * 100 if net_spent > 0 else 0`
(`finance_analyzer.py` line 681). -/
def categoryPct (netAmount netSpent : ℚ) : Option ℚ :=
  if netSpent > 0 then (pyDiv netAmount netSpent).map (fun x => x * 100) else some 0

/-- Expression `weekend_pct = weekend_spending / (weekend_spending + weekday_spending) * 100`
(`web_app/insights.py` line 196) — written with no guard. -/
def weekendPct (weekendSpending weekdaySpending : ℚ) : Option ℚ :=
  (pyDiv weekendSpending (weekendSpending + weekdaySpending)).map (fun x => x * 100)

end FinanceAnalyzer

namespace FinanceAnalyzer

/-- Selecting-then-dropping is the same as dropping directly: when the
selection is empty the drop is a no-op. -/
lemma filterCCPayments_eq (l : List Txn) :
    filterCCPayments l = l.filter (fun t => !isCCPayment t) := by
  show (if (l.filter isCCPayment).isEmpty then l else l.filter (fun t => !isCCPayment t)) = _
  split
  · next h =>
    have hnone : ∀ t ∈ l, ¬(isCCPayment t = true) := by
      intro t ht hcc
      have hmem : t ∈ l.filter isCCPayment := List.mem_filter.2 ⟨ht, hcc⟩
      rw [List.isEmpty_iff] at h
      simp [h] at hmem
    exact (List.filter_eq_self.2 (fun a ha => by simp [hnone a ha])).symm
  · rfl

/-- Splitting a list length by a Boolean predicate. -/
lemma length_filter_split {α : Type} (p : α → Bool) (l : List α) :
    (l.filter p).length + (l.filter (fun a => !p a)).length = l.length := by
  induction l with
  | nil => rfl
  | cons a as ih => cases h : p a <;> simp [List.filter_cons, h] <;> omega

/-- C1 (amended): the credit-card-payment exclusion filter applied to the
merged ledger keeps exactly the rows that are not (negative amount with a
payment-marker description); the predicate does not look at the row's
origin.  The removed-row count reported as the single combined figure is
the number of dropped rows. -/
theorem ccFilter_characterization (l : List Txn) (t : Txn) :
    (t ∈ filterCCPayments l ↔
      t ∈ l ∧ ¬(t.amount < 0 ∧ containsMarker t.description = true)) ∧
    ccFilteredCount l + (filterCCPayments l).length = l.length := by
  constructor
  · rw [filterCCPayments_eq, List.mem_filter]
    constructor
    · rintro ⟨hl, hf⟩
      refine ⟨hl, ?_⟩
      rintro ⟨hlt, hm⟩
      simp [isCCPayment, hlt, hm] at hf
    · rintro ⟨hl, hn⟩
      refine ⟨hl, ?_⟩
      by_cases hlt : t.amount < 0
      · have hm : containsMarker t.description = false := by
          cases hmk : containsMarker t.description
          · rfl
          · exact absurd ⟨hlt, hmk⟩ hn
        simp [isCCPayment, hm]
      · simp [isCCPayment, hlt]
  · rw [filterCCPayments_eq]
    exact length_filter_split isCCPayment l

/-- A peer-payment (Venmo-origin) transaction with negative amount and a
payment-marker description. -/
def venmoCCRow : Txn :=
  { date := 0, description := "INTERNET PAYMENT", amount := -10,
    sourceCategory := "Payments", category := "Payments & Credits", origin := "Venmo" }

/-- C1 counterexample: the exclusion filter also removes a row whose
origin is the peer-payment source, so it does not remove exactly the
card-origin rows. -/
theorem ccFilter_ignores_origin_cex :
    venmoCCRow.origin = "Venmo" ∧ venmoCCRow.origin ≠ "Discover" ∧
    filterCCPayments [venmoCCRow] = [] := by
  have hm : containsMarker "INTERNET PAYMENT" = true := by decide
  have hlt : ((-10 : ℚ) < 0) := by norm_num
  refine ⟨rfl, by decide, ?_⟩
  rw [filterCCPayments_eq]
  simp [isCCPayment, venmoCCRow, hm, hlt]

/-- C4: categorizer precedence — the brand keyword STARBUCKS wins over the
source category Restaurants, while a description matching no keyword
falls back to the source-category rule. -/
theorem categorize_precedence_scenarioC :
    categorizeEnhanced "STARBUCKS #123" "Restaurants" = "Coffee & Cafes" ∧
    categorizeEnhanced "LOCAL DINER" "Restaurants" = "Restaurants & Dining" := by
  constructor <;> decide

/-- C9: a zero-amount row is never classified Expense (it is Credit Card
Payment when the description matches a payment marker and Credit/Payment
otherwise), and the exclusion filter, whose predicate requires a strictly
negative amount, never removes it. -/
theorem zero_amount_classification (l : List Txn) (t : Txn) (h : t.amount = 0) :
    classifyTransaction t.amount t.description ≠ "Expense" ∧
    classifyTransaction t.amount t.description =
      (if containsMarker t.description then "Credit Card Payment" else "Credit/Payment") ∧
    (t ∈ filterCCPayments l ↔ t ∈ l) := by
  have hngt : ¬(t.amount > 0) := by rw [h]; norm_num
  refine ⟨?_, ?_, ?_⟩
  · unfold classifyTransaction
    rw [if_neg hngt]
    split <;> decide
  · unfold classifyTransaction
    rw [if_neg hngt]
  · rw [filterCCPayments_eq, List.mem_filter]
    have hcc : isCCPayment t = false := by
      simp [isCCPayment, h]
    simp [hcc]

/-- A zero-amount card row whose description matches a payment marker. -/
def zeroRowW : Txn :=
  { date := 0, description := "DIRECTPAY WEB", amount := 0,
    sourceCategory := "", category := "Payments & Credits", origin := "Discover" }

/-- C9 witness: a concrete zero-amount row with a payment-marker
description is classified Credit Card Payment, not Expense, and survives
the filter. -/
theorem zero_amount_classification_witness :
    classifyTransaction zeroRowW.amount zeroRowW.description ≠ "Expense" ∧
    classifyTransaction zeroRowW.amount zeroRowW.description =
      (if containsMarker zeroRowW.description then "Credit Card Payment"
       else "Credit/Payment") ∧
    (zeroRowW ∈ filterCCPayments [zeroRowW] ↔ zeroRowW ∈ [zeroRowW]) :=
  zero_amount_classification [zeroRowW] zeroRowW rfl

/-- The fixed (non-pass-through) labels the nested if/elif chain of
`categorize_enhanced` can produce. -/
def fixedEnhancedLabels : List String :=
  ["Housing", "Coffee & Cafes", "Tech & Software", "Transportation", "Air Travel",
   "Restaurants & Dining", "Education/Work", "Gas & Fuel", "Groceries & Supermarkets",
   "Travel & Entertainment", "Cashback & Credits", "Payments & Credits"]

/-- C3 (amended): every branch of the categorizer returns either a fixed
non-empty label or the source-provided category unchanged; there is no
final "Other" fallback, so the result is non-empty whenever the source
category is non-empty (and always when a rule matched). -/
theorem categorize_passthrough_total (desc cat : String) :
    (categorizeEnhanced desc cat = cat ∨
      categorizeEnhanced desc cat ∈ fixedEnhancedLabels) ∧
    (cat ≠ "" → categorizeEnhanced desc cat ≠ "") := by
  unfold categorizeEnhanced
  by_cases h1 : strContainsSub (strUpper desc) "NASAAMESEXCHANGEL" = true
  · rw [if_pos h1]
    exact ⟨Or.inr (by decide), fun _ => by decide⟩
  · rw [if_neg h1]
    by_cases h2 : (["COFFEE", "COPPERLINE", "STARBUCKS", "COFFEE VILLAGE", "SIGHTGLASS"].any
          (fun k => strContainsSub (strUpper desc) k)) = true
    · rw [if_pos h2]
      exact ⟨Or.inr (by decide), fun _ => by decide⟩
    · rw [if_neg h2]
      by_cases h3 : (["CURSOR", "OPENAI", "CHATGPT", "APPLE.COM"].any
            (fun k => strContainsSub (strUpper desc) k)) = true
      · rw [if_pos h3]
        exact ⟨Or.inr (by decide), fun _ => by decide⟩
      · rw [if_neg h3]
        by_cases h4 : (["UBER", "LYFT", "CLIPPER", "ZIPCAR"].any
              (fun k => strContainsSub (strUpper desc) k)) = true
        · rw [if_pos h4]
          exact ⟨Or.inr (by decide), fun _ => by decide⟩
        · rw [if_neg h4]
          by_cases h5 : strContainsSub (strUpper desc) "UNITED AIRLINES" = true
          · rw [if_pos h5]
            exact ⟨Or.inr (by decide), fun _ => by decide⟩
          · rw [if_neg h5]
            by_cases h6 : (["THAI NOODLE", "PHO TO LUV", "5TH ELEMENT INDIA"].any
                    (fun k => strContainsSub (strUpper desc) k) ||
                  ["MCDONALD", "CHIPOTLE", "CHICK-FIL-A", "IN-N-OUT"].any
                    (fun k => strContainsSub (strUpper desc) k) ||
                  cat == "Restaurants") = true
            · rw [if_pos h6]
              exact ⟨Or.inr (by decide), fun _ => by decide⟩
            · rw [if_neg h6]
              by_cases h7 : ((["NASA", "EMBRY RIDDLE", "ERAU"].any (fun k => strContainsSub (strUpper desc) k)) &&
                    !strContainsSub (strUpper desc) "NASAAMESEXCHANGEL") = true
              · rw [if_pos h7]
                exact ⟨Or.inr (by decide), fun _ => by decide⟩
              · rw [if_neg h7]
                by_cases h8 : (["EXXONMOBIL", "SHELL", "CHEVRON", "WAWA", "CIRCLE K", "MARATHON"].any
                      (fun k => strContainsSub (strUpper desc) k)) = true
                · rw [if_pos h8]
                  exact ⟨Or.inr (by decide), fun _ => by decide⟩
                · rw [if_neg h8]
                  by_cases h9 : (["PUBLIX", "SAFEWAY", "TRADER JOE", "WINN-DIXIE", "TARGET"].any
                          (fun k => strContainsSub (strUpper desc) k) ||
                        cat == "Groceries" || cat == "Supermarkets") = true
                  · rw [if_pos h9]
                    exact ⟨Or.inr (by decide), fun _ => by decide⟩
                  · rw [if_neg h9]
                    by_cases h10 : (cat == "Travel/ Entertainment") = true
                    · rw [if_pos h10]
                      exact ⟨Or.inr (by decide), fun _ => by decide⟩
                    · rw [if_neg h10]
                      by_cases h11 : (cat == "Awards and Rebate Credits") = true
                      · rw [if_pos h11]
                        exact ⟨Or.inr (by decide), fun _ => by decide⟩
                      · rw [if_neg h11]
                        by_cases h12 : (cat == "Payments and Credits") = true
                        · rw [if_pos h12]
                          exact ⟨Or.inr (by decide), fun _ => by decide⟩
                        · rw [if_neg h12]
                          exact ⟨Or.inl rfl, fun h => h⟩

/-- C3 witness: the pass-through branch with a non-empty source category
yields a non-empty label. -/
theorem categorize_passthrough_total_witness :
    (categorizeEnhanced "ZELLE TRANSFER" "Services" = "Services" ∨
      categorizeEnhanced "ZELLE TRANSFER" "Services" ∈ fixedEnhancedLabels) ∧
    categorizeEnhanced "ZELLE TRANSFER" "Services" ≠ "" :=
  ⟨(categorize_passthrough_total "ZELLE TRANSFER" "Services").1,
   (categorize_passthrough_total "ZELLE TRANSFER" "Services").2 (by decide)⟩

/-- C3 counterexample: with no matching rule and an absent (empty) source
category the assigned label is the empty string, not the literal
"Other". -/
theorem categorize_no_other_fallback_cex :
    categorizeEnhanced "ZZZ UNZON" "" = "" ∧ categorizeEnhanced "ZZZ UNZON" "" ≠ "Other" := by
  constructor <;> decide

/-- C10: rows written by the peer-payment exporter satisfy the
direction/sign invariant — Income exactly when the To field is the
account-owner literal, Income rows carry the absolute amount, Expense
rows its negation, and a missing or different To field always yields
Expense. -/
theorem venmo_export_direction_sign (r : VenmoRaw) (cat : String) :
    ((exportVenmoRow r cat).transactionType = "Income" ↔
      r.toField = some "Simon Cole") ∧
    ((exportVenmoRow r cat).transactionType = "Income" →
      (exportVenmoRow r cat).amount = |r.amountClean| ∧
      0 ≤ (exportVenmoRow r cat).amount) ∧
    ((exportVenmoRow r cat).transactionType = "Expense" →
      (exportVenmoRow r cat).amount = -|r.amountClean| ∧
      (exportVenmoRow r cat).amount ≤ 0) ∧
    (r.toField ≠ some "Simon Cole" →
      (exportVenmoRow r cat).transactionType = "Expense") := by
  unfold exportVenmoRow
  split
  · next h =>
    rw [beq_iff_eq] at h
    refine ⟨by simp [h], fun _ => ⟨rfl, abs_nonneg _⟩, fun hc => by simp at hc,
      fun hne => absurd h hne⟩
  · next h =>
    rw [beq_iff_eq] at h
    refine ⟨by simp [h], fun hc => by simp at hc,
      fun _ => ⟨rfl, neg_nonpos.2 (abs_nonneg _)⟩, fun _ => rfl⟩

/-- C10 witness: a row whose To field is absent is exported as an Expense
with non-positive amount. -/
theorem venmo_export_direction_sign_witness :
    ((exportVenmoRow ⟨none, some "Bob", none, 12, 0⟩ "Other").transactionType =
      "Expense") ∧
    (exportVenmoRow ⟨none, some "Bob", none, 12, 0⟩ "Other").amount ≤ 0 := by
  have h := venmo_export_direction_sign ⟨none, some "Bob", none, 12, 0⟩ "Other"
  have he := h.2.2.2 (by simp)
  exact ⟨he, (h.2.2.1 he).2⟩

/-- C2: a peer-payment row whose recipient is the account owner and whose
native amount is +30 is exported as Income +30, negated once by the
loader into canonical amount −30; provided its description carries no
payment marker it survives the exclusion filter and contributes 30 to
total income. -/
theorem venmo_scenarioB (r : VenmoRaw) (cat : String)
    (hto : r.toField = some "Simon Cole") (hamt : r.amountClean = 30)
    (hdesc : containsMarker (exportVenmoRow r cat).description = false) :
    (venmoToCanonical (exportVenmoRow r cat)).amount = -30 ∧
    filterCCPayments [venmoToCanonical (exportVenmoRow r cat)] =
      [venmoToCanonical (exportVenmoRow r cat)] ∧
    totalIncome [venmoToCanonical (exportVenmoRow r cat)] = 30 := by
  have hbeq : (r.toField == some "Simon Cole") = true := by
    rw [beq_iff_eq]; exact hto
  have hamt30 : (exportVenmoRow r cat).amount = 30 := by
    unfold exportVenmoRow
    rw [if_pos hbeq]
    show |r.amountClean| = 30
    rw [hamt]
    norm_num
  have hcanon : (venmoToCanonical (exportVenmoRow r cat)).amount = -30 := by
    show -(exportVenmoRow r cat).amount = -30
    rw [hamt30]
  have hcdesc : (venmoToCanonical (exportVenmoRow r cat)).description =
      (exportVenmoRow r cat).description := rfl
  have hcc : isCCPayment (venmoToCanonical (exportVenmoRow r cat)) = false := by
    simp [isCCPayment, hcdesc, hdesc]
  refine ⟨hcanon, ?_, ?_⟩
  · rw [filterCCPayments_eq]
    simp [hcc]
  · unfold totalIncome
    have hkeep : (decide ((venmoToCanonical (exportVenmoRow r cat)).amount < 0) &&
        !containsMarker (venmoToCanonical (exportVenmoRow r cat)).description) = true := by
      rw [hcanon, hcdesc, hdesc]
      norm_num
    simp only [List.filter, hkeep]
    rw [List.map_cons, List.map_nil, List.sum_cons, List.sum_nil, hcanon]
    norm_num

/-- C2 witness: the concrete scenario-B row. -/
theorem venmo_scenarioB_witness :
    (venmoToCanonical (exportVenmoRow ⟨some "Simon Cole", some "Alice", some "lunch", 30, 0⟩
      "Income/Reimbursement")).amount = -30 ∧
    filterCCPayments [venmoToCanonical (exportVenmoRow
      ⟨some "Simon Cole", some "Alice", some "lunch", 30, 0⟩ "Income/Reimbursement")] =
      [venmoToCanonical (exportVenmoRow
        ⟨some "Simon Cole", some "Alice", some "lunch", 30, 0⟩ "Income/Reimbursement")] ∧
    totalIncome [venmoToCanonical (exportVenmoRow
      ⟨some "Simon Cole", some "Alice", some "lunch", 30, 0⟩ "Income/Reimbursement")] = 30 :=
  venmo_scenarioB ⟨some "Simon Cole", some "Alice", some "lunch", 30, 0⟩
    "Income/Reimbursement" rfl rfl (by decide)


end FinanceAnalyzer

namespace FinanceAnalyzer

/-- Group-sum of a cons cell: the head contributes to exactly its own
category group. -/
lemma netByCategoryValue_cons (t : Txn) (ts : List Txn) (c : String) :
    netByCategoryValue (t :: ts) c =
      (if t.category = c then t.amount else 0) + netByCategoryValue ts c := by
  by_cases h : t.category = c
  · simp [netByCategoryValue, List.filter_cons, h]
  · simp [netByCategoryValue, List.filter_cons, h]

/-- A selector sum over labels not containing the key vanishes. -/
lemma sum_map_ite_zero (q : ℚ) (c : String) (as : List String) (hna : c ∉ as) :
    (as.map (fun x => if c = x then q else 0)).sum = 0 := by
  induction as with
  | nil => simp
  | cons a t ih =>
    have hca : c ≠ a := fun h => hna (h ▸ List.mem_cons_self a t)
    have hct : c ∉ t := fun h => hna (List.mem_cons_of_mem a h)
    simp [hca, ih hct]

/-- A selector sum over a duplicate-free label list containing the key
is the selected value. -/
lemma sum_map_ite_single (q : ℚ) (c : String) (cs : List String)
    (hnd : cs.Nodup) (hc : c ∈ cs) :
    (cs.map (fun x => if c = x then q else 0)).sum = q := by
  induction cs with
  | nil => cases hc
  | cons a t ih =>
    rcases List.mem_cons.1 hc with h | h
    · subst h
      have hna : c ∉ t := (List.nodup_cons.1 hnd).1
      simp [sum_map_ite_zero q c t hna]
    · have hca : c ≠ a := by
        rintro rfl
        exact (List.nodup_cons.1 hnd).1 h
      simp [hca, ih (List.nodup_cons.1 hnd).2 h]

/-- Pointwise addition distributes over a mapped sum. -/
lemma sum_map_addQ {α : Type} (f g : α → ℚ) (l : List α) :
    (l.map (fun x => f x + g x)).sum = (l.map f).sum + (l.map g).sum := by
  induction l with
  | nil => simp
  | cons a t ih =>
    simp only [List.map_cons, List.sum_cons, ih]
    ring

/-- A constant-zero mapped sum vanishes. -/
lemma sum_map_zeroQ {α : Type} (l : List α) : (l.map (fun _ => (0:ℚ))).sum = 0 := by
  induction l with
  | nil => rfl
  | cons a t ih => simp [ih]

/-- Partition identity: summing the per-category group-sums over a
duplicate-free list of labels covering the ledger recovers the plain sum
of amounts. -/
lemma sum_groupSums (cs : List String) (hnd : cs.Nodup) :
    ∀ l : List Txn, (∀ t ∈ l, t.category ∈ cs) →
      (cs.map (netByCategoryValue l)).sum = (l.map Txn.amount).sum := by
  intro l
  induction l with
  | nil =>
    intro _
    have : netByCategoryValue ([] : List Txn) = fun _ => (0:ℚ) := by
      funext c
      rfl
    rw [this, sum_map_zeroQ]
    rfl
  | cons t ts ih =>
    intro hall
    have hmem : t.category ∈ cs := hall t (List.mem_cons_self t ts)
    have hts : ∀ x ∈ ts, x.category ∈ cs := fun x hx => hall x (List.mem_cons_of_mem t hx)
    have hfun : netByCategoryValue (t :: ts) =
        (fun c => (if t.category = c then t.amount else 0) + netByCategoryValue ts c) :=
      funext fun c => netByCategoryValue_cons t ts c
    rw [hfun, sum_map_addQ, ih hts, sum_map_ite_single t.amount t.category cs hnd hmem]
    simp

/-- Negative-amount rows sum to a non-positive total. -/
lemma sum_filter_neg_nonpos (l : List Txn) :
    ((l.filter (fun t => decide (t.amount < 0))).map Txn.amount).sum ≤ 0 := by
  induction l with
  | nil => simp
  | cons t ts ih =>
    rw [List.filter_cons]
    by_cases hlt : t.amount < 0
    · rw [if_pos (by simpa using hlt), List.map_cons, List.sum_cons]
      exact add_nonpos (le_of_lt hlt) ih
    · rw [if_neg (by simpa using hlt)]
      exact ih

/-- Splitting the ledger sum into its positive-filter and negative-filter
parts (zero-amount rows contribute zero to either side). -/
lemma sum_split_pos_neg (l : List Txn) :
    ((l.filter (fun t => decide (t.amount > 0))).map Txn.amount).sum +
      ((l.filter (fun t => decide (t.amount < 0))).map Txn.amount).sum =
    (l.map Txn.amount).sum := by
  induction l with
  | nil => simp
  | cons t ts ih =>
    rcases lt_trichotomy t.amount 0 with hlt | heq | hgt
    · rw [List.filter_cons, List.filter_cons, if_neg (by simpa using hlt.asymm),
        if_pos (by simpa using hlt), List.map_cons, List.sum_cons, List.map_cons,
        List.sum_cons]
      linarith [ih]
    · rw [List.filter_cons, List.filter_cons, if_neg (by simp [heq]),
        if_neg (by simp [heq]), List.map_cons, List.sum_cons, heq]
      linarith [ih]
    · rw [List.filter_cons, List.filter_cons, if_pos (by simpa using hgt),
        if_neg (by simpa using hgt.asymm), List.map_cons, List.sum_cons, List.map_cons,
        List.sum_cons]
      linarith [ih]

/-- C5 (amended): on a ledger containing no credit-card-payment row
(negative amount with payment-marker description) — e.g. any output of
the exclusion filter — the sum of all per-category net totals equals the
aggregate net (total expense minus total income). -/
theorem netByCategory_sum_eq_net (l : List Txn)
    (h : ∀ t ∈ l, ¬(t.amount < 0 ∧ containsMarker t.description = true)) :
    netByCategoryTotal l = netSpending l := by
  have hpart : netByCategoryTotal l = (l.map Txn.amount).sum := by
    unfold netByCategoryTotal
    apply sum_groupSums (categoriesOf l) (List.nodup_dedup _)
    intro t ht
    exact List.mem_dedup.2 (List.mem_map_of_mem Txn.category ht)
  have hfil : l.filter (fun t => decide (t.amount < 0) && !containsMarker t.description)
      = l.filter (fun t => decide (t.amount < 0)) := by
    apply List.filter_congr
    intro t ht
    by_cases hlt : t.amount < 0
    · have hm : containsMarker t.description = false := by
        cases hmk : containsMarker t.description
        · rfl
        · exact absurd ⟨hlt, hmk⟩ (h t ht)
      simp [hlt, hm]
    · simp [hlt]
  unfold netSpending totalExpense totalIncome
  rw [hfil, abs_of_nonpos (sum_filter_neg_nonpos l), hpart, ← sum_split_pos_neg l]
  ring

/-- A one-row ledger holding only a credit-card-payment credit. -/
def paymentOnlyLedger : List Txn :=
  [{ date := 0, description := "INTERNET PAYMENT", amount := -10,
     sourceCategory := "", category := "Payments & Credits", origin := "Discover" }]

/-- C5 counterexample: with a credit-card-payment row in the ledger the
category sums total −10 while the aggregate net is 0, because
total income excludes payment-marker rows but the category group-sum does
not. -/
theorem netByCategory_totals_mismatch_cex :
    netByCategoryTotal paymentOnlyLedger = -10 ∧
    netSpending paymentOnlyLedger = 0 ∧
    netByCategoryTotal paymentOnlyLedger ≠ netSpending paymentOnlyLedger := by
  have h1 : netByCategoryTotal paymentOnlyLedger = -10 := by
    simp [netByCategoryTotal, categoriesOf, netByCategoryValue, paymentOnlyLedger]
  have h2 : netSpending paymentOnlyLedger = 0 := by
    have hm : containsMarker "INTERNET PAYMENT" = true := by decide
    simp [netSpending, totalExpense, totalIncome, paymentOnlyLedger, hm]
  refine ⟨h1, h2, ?_⟩
  rw [h1, h2]
  norm_num

/-- A small marker-free ledger: one expense, one peer-payment income. -/
def mixedLedgerW : List Txn :=
  [{ date := 0, description := "PUBLIX STORE 123", amount := 50,
     sourceCategory := "Groceries", category := "Groceries & Supermarkets",
     origin := "Discover" },
   { date := 1, description := "lunch", amount := -20,
     sourceCategory := "Income/Reimbursement", category := "Income/Reimbursement",
     origin := "Venmo" }]

/-- C5 witness: the aggregation identity holds on the concrete marker-free
two-row ledger. -/
theorem netByCategory_sum_eq_net_witness :
    (∀ t ∈ mixedLedgerW, ¬(t.amount < 0 ∧ containsMarker t.description = true)) ∧
    netByCategoryTotal mixedLedgerW = netSpending mixedLedgerW := by
  have hhyp : ∀ t ∈ mixedLedgerW, ¬(t.amount < 0 ∧ containsMarker t.description = true) := by
    intro t ht
    simp only [mixedLedgerW, List.mem_cons, List.not_mem_nil, or_false] at ht
    rcases ht with rfl | rfl
    · rintro ⟨-, h2⟩
      exact absurd h2 (by decide)
    · rintro ⟨-, h2⟩
      exact absurd h2 (by decide)
  exact ⟨hhyp, netByCategory_sum_eq_net mixedLedgerW hhyp⟩

end FinanceAnalyzer

namespace FinanceAnalyzer

/-- C6 (amended): the web Budget Projector clamps elapsed days into
`[0, window_length_days]`, so past the window end the elapsed count stays
at the full window length and the smoothly allocated periodic cost never
exceeds the total (daily rate times window length); the CLI variant
clamps only from below. -/
theorem web_elapsed_clamp (today start endDay : Int) (dailyRent : ℚ)
    (hdur : 0 < endDay - start + 1) (hrent : 0 ≤ dailyRent) :
    webDaysElapsed today start endDay =
      max 0 (min (today - start + 1) (endDay - start + 1)) ∧
    (endDay < today → webDaysElapsed today start endDay = endDay - start + 1) ∧
    webSmoothRentTotal dailyRent today start endDay ≤
      dailyRent * ((endDay - start + 1 : Int) : ℚ) := by
  refine ⟨rfl, ?_, ?_⟩
  · intro hlt
    unfold webDaysElapsed
    omega
  · unfold webSmoothRentTotal
    have hle : webDaysElapsed today start endDay ≤ endDay - start + 1 := by
      unfold webDaysElapsed
      omega
    exact mul_le_mul_of_nonneg_left (by exact_mod_cast hle) hrent

/-- C6 witness: a ten-day window fully in the past. -/
theorem web_elapsed_clamp_witness :
    webDaysElapsed 20 0 9 = max 0 (min (20 - 0 + 1) (9 - 0 + 1)) ∧
    ((9:Int) < 20 → webDaysElapsed 20 0 9 = 9 - 0 + 1) ∧
    webSmoothRentTotal 10 20 0 9 ≤ 10 * (((9:Int) - 0 + 1 : Int) : ℚ) :=
  web_elapsed_clamp 20 0 9 10 (by norm_num) (by norm_num)

/-- C6 counterexample: the CLI projector, ten days past the end of a
ten-day window with a 100-unit periodic cost, reports 20 elapsed days
(the clamp would give 10) and allocates 200 — more than the total
periodic cost. -/
theorem cli_rent_overallocation_cex :
    cliDaysSoFar 19 0 = 20 ∧
    max 0 (min ((19:Int) - 0 + 1) (9 - 0 + 1)) = 10 ∧
    cliAllocatedRent 100 19 0 9 = 200 ∧
    ¬(cliAllocatedRent 100 19 0 9 ≤ 100) := by
  refine ⟨by decide, by decide, ?_, ?_⟩
  · norm_num [cliAllocatedRent, cliDailyRent, cliDaysSoFar]
  · norm_num [cliAllocatedRent, cliDailyRent, cliDaysSoFar]

/-- C7 (amended): when every date parses, the card adapter keeps every
row — rows with a non-numeric amount stay in the output with a null
(NaN) amount rather than being excluded — and a single unparseable date
aborts the whole file's parse with an error. -/
theorem cardAdapter_row_handling (rows : List RawCardRow) :
    (rows.all (fun r => r.dateRaw.isSome) = true →
      ∃ out, parseCardRows rows = Except.ok out ∧ out.length = rows.length ∧
        out.map CardRow.amount = rows.map RawCardRow.amountRaw) ∧
    ((∃ r ∈ rows, r.dateRaw = none) →
      parseCardRows rows = Except.error "to_datetime: unable to parse date") := by
  constructor
  · intro h
    unfold parseCardRows
    rw [if_pos h]
    refine ⟨_, rfl, by simp, ?_⟩
    simp [List.map_map, Function.comp]
  · rintro ⟨r, hr, hnone⟩
    have hfalse : ¬(rows.all (fun r => r.dateRaw.isSome) = true) := by
      intro hall
      rw [List.all_eq_true] at hall
      have h2 := hall r hr
      rw [hnone] at h2
      simp at h2
    unfold parseCardRows
    rw [if_neg hfalse]

/-- A well-formed raw card row. -/
def goodCardRow : RawCardRow :=
  { dateRaw := some 3, description := "STORE A", amountRaw := some 5,
    category := "Groceries" }

/-- A raw card row whose amount cell is non-numeric (coerced to NaN). -/
def badAmountCardRow : RawCardRow :=
  { dateRaw := some 0, description := "STORE B", amountRaw := none,
    category := "Groceries" }

/-- A raw card row whose date cell is unparseable. -/
def badDateCardRow : RawCardRow :=
  { dateRaw := none, description := "STORE C", amountRaw := some 7,
    category := "Groceries" }

/-- C7 witness: a single parseable row passes through intact. -/
theorem cardAdapter_row_handling_witness :
    [goodCardRow].all (fun r => r.dateRaw.isSome) = true ∧
    (∃ out, parseCardRows [goodCardRow] = Except.ok out ∧
      out.length = [goodCardRow].length ∧
      out.map CardRow.amount = [goodCardRow].map RawCardRow.amountRaw) :=
  ⟨by decide, (cardAdapter_row_handling [goodCardRow]).1 (by decide)⟩

/-- C7 counterexample: a non-numeric amount is kept (as NaN), not
excluded, and an unparseable date aborts the whole parse instead of
dropping the row. -/
theorem cardAdapter_row_handling_cex :
    parseCardRows [badAmountCardRow] =
      Except.ok [{ date := 0, description := "STORE B", amount := none,
                   category := "Groceries" }] ∧
    parseCardRows [badDateCardRow] =
      Except.error "to_datetime: unable to parse date" := by
  constructor <;> rfl

/-- C8 (amended): the guarded ratios (web internship daily rate and
spending efficiency, CLI category percentage) are always defined and
short-circuit to 0 when their denominator guard fails; the
weekend-percentage ratio has no guard. -/
theorem guarded_ratios_zero (total rate budget netAmount netSpent : ℚ) (d : Int) :
    ((actualDailyRate total d).isSome = true ∧
      (d ≤ 0 → actualDailyRate total d = some 0)) ∧
    ((spendingEfficiency rate budget).isSome = true ∧
      (budget ≤ 0 → spendingEfficiency rate budget = some 0)) ∧
    ((categoryPct netAmount netSpent).isSome = true ∧
      (netSpent ≤ 0 → categoryPct netAmount netSpent = some 0)) := by
  refine ⟨⟨?_, ?_⟩, ⟨?_, ?_⟩, ⟨?_, ?_⟩⟩
  · unfold actualDailyRate
    split
    · next h =>
      have hne : ((d : ℚ)) ≠ 0 := by
        exact_mod_cast ne_of_gt h
      rw [pyDiv, if_neg hne]
      rfl
    · rfl
  · intro hle
    unfold actualDailyRate
    rw [if_neg (by omega : ¬ d > 0)]
  · unfold spendingEfficiency
    split
    · next h =>
      rw [pyDiv, if_neg (ne_of_gt h)]
      rfl
    · rfl
  · intro hle
    unfold spendingEfficiency
    rw [if_neg (not_lt.2 hle)]
  · unfold categoryPct
    split
    · next h =>
      rw [pyDiv, if_neg (ne_of_gt h)]
      rfl
    · rfl
  · intro hle
    unfold categoryPct
    rw [if_neg (not_lt.2 hle)]

/-- C8 witness: all three guards short-circuit to 0 on a zero
denominator. -/
theorem guarded_ratios_zero_witness :
    actualDailyRate 5 0 = some 0 ∧ spendingEfficiency 7 0 = some 0 ∧
    categoryPct 3 0 = some 0 :=
  ⟨(guarded_ratios_zero 5 7 0 3 0 0).1.2 (by norm_num),
   (guarded_ratios_zero 5 7 0 3 0 0).2.1.2 (by norm_num),
   (guarded_ratios_zero 5 7 0 3 0 0).2.2.2 (by norm_num)⟩

/-- C8 counterexample: the weekend-percentage ratio of
`show_spending_patterns` is undefined on an all-zero week — it neither
raises-with-guard nor short-circuits to 0. -/
theorem weekendPct_unguarded_cex :
    weekendPct 0 0 = none ∧ weekendPct 0 0 ≠ some 0 := by
  constructor <;> simp [weekendPct, pyDiv]

end FinanceAnalyzer
